import Mathlib

/-!
Verification of the `volume_ds` dataset-memory estimator.

The repository carries two implementations of the same core:
* `src/app.py` — functions `parse_create_table_ddl`, `estimate_column_size`,
  `format_size` (the single-file variant);
* `src/memory_calculator.py` — class `DatasetMemoryCalculator` with
  `add_column`, `calculate_column_size`, `calculate_total_memory`,
  `parse_create_table_sql` (the class-based variant).

Both are embedded below.  Python strings are Lean `String` / `List Char`;
Python `int` is `Int`; Python `float` results are modelled as exact
rationals (`ℚ`); a code path that raises (e.g. `None * row_count`, a
`TypeError`) returns `none`.  The regular expressions of the source are
embedded as deterministic scanners that implement the exact semantics of
each concrete pattern (leftmost match, greedy repetition, alternatives
tried in the order written); each scanner is documented with the pattern
it implements.
-/

namespace VolumeDS

/-- Python's `\s` character class restricted to ASCII, which is all the
inputs ever contain: space, tab, newline, carriage return, vertical tab,
form feed. -/
def isSpaceChar (c : Char) : Bool :=
  c == ' ' || c == '\t' || c == '\n' || c == '\r' || c == '\x0b' || c == '\x0c'

/-- Python's `\w` character class restricted to ASCII: letters, digits,
underscore. -/
def isWordChar (c : Char) : Bool :=
  c.isAlphanum || c == '_'

/-- Python `str.strip()` on a character list: drop whitespace at both ends. -/
def pyStrip (l : List Char) : List Char :=
  ((l.dropWhile isSpaceChar).reverse.dropWhile isSpaceChar).reverse

/-- Python `str.strip()` on a `String`. -/
def pyStripStr (s : String) : String :=
  String.mk (pyStrip s.data)

/-- Python `str.lower()` (ASCII inputs). -/
def pyLower (s : String) : String :=
  String.mk (s.data.map Char.toLower)

/-- Python `str.upper()` (ASCII inputs). -/
def pyUpper (s : String) : String :=
  String.mk (s.data.map Char.toUpper)

/-- Case-sensitive literal match at the start of the input; returns the
rest of the input after the literal. -/
def matchLit : List Char → List Char → Option (List Char)
  | [], s => some s
  | _ :: _, [] => none
  | p :: ps, c :: cs => if c = p then matchLit ps cs else none

/-- `(matchLit pat l).isSome`: Python `str.startswith` on character lists. -/
def startsWithLit (pat l : List Char) : Bool :=
  (matchLit pat l).isSome

/-- Case-insensitive literal match at the start of the input; returns the
matched input characters (original case preserved) and the rest. -/
def matchLitCI : List Char → List Char → Option (List Char × List Char)
  | [], s => some ([], s)
  | _ :: _, [] => none
  | p :: ps, c :: cs =>
    if c.toLower = p.toLower then
      (matchLitCI ps cs).map (fun m => (c :: m.1, m.2))
    else none

/-- Digits of a decimal numeral to a natural number: Python `int(...)` on
the digit group captured by a regex. -/
def digitsToNat (ds : List Char) : Nat :=
  ds.foldl (fun n c => n * 10 + (c.toNat - '0'.toNat)) 0

/-- One column descriptor as stored by `DatasetMemoryCalculator.add_column`:
the dict `\x7b'name': ..., 'type': ..., 'length': ...\x7d`.  The `length`
key is always present (`add_column` always stores it), so `Option Int`
with `none` for Python `None` is a faithful model of every reachable
column dict. -/
structure Column where
  name : String
  type : String
  length : Option Int
deriving DecidableEq, Repr

/-- An entry of `DatasetMemoryCalculator.DATA_TYPE_SIZES`: either a fixed
byte count or the one callable entry (`'string': lambda length: length`). -/
inductive SizeEntry
  | fixed : Int → SizeEntry
  | varlen : SizeEntry
deriving DecidableEq, Repr

/-- `DatasetMemoryCalculator.DATA_TYPE_SIZES.get`, the class-level dict of
per-value byte sizes (memory_calculator.py lines 11-26). -/
def DATA_TYPE_SIZES_get (t : String) : Option SizeEntry :=
  if t = "int8" then some (.fixed 1)
  else if t = "int16" then some (.fixed 2)
  else if t = "int32" then some (.fixed 4)
  else if t = "int64" then some (.fixed 8)
  else if t = "bigint" then some (.fixed 8)
  else if t = "smallint" then some (.fixed 2)
  else if t = "float" then some (.fixed 4)
  else if t = "float32" then some (.fixed 4)
  else if t = "float64" then some (.fixed 8)
  else if t = "decimal" then some (.fixed 8)
  else if t = "bool" then some (.fixed 1)
  else if t = "boolean" then some (.fixed 1)
  else if t = "datetime" then some (.fixed 8)
  else if t = "string" then some .varlen
  else none

/-- `DatasetMemoryCalculator.add_column` (memory_calculator.py lines 31-55),
as a pure function appending to the column list: lower-cases and strips the
type, collapses any `decimal...` prefix to `decimal`, and defaults the
length to 50 for `varchar`/`string` when no length was given. -/
def add_column (cols : List Column) (name : String) (data_type : String)
    (length : Option Int) : List Column :=
  let dt0 := pyStripStr (pyLower data_type)
  let dt := if startsWithLit "decimal".data dt0.data then "decimal" else dt0
  let len := if (dt = "varchar" ∨ dt = "string") ∧ length = none then some 50
             else length
  cols ++ [{ name := name, type := dt, length := len }]

/-- `DatasetMemoryCalculator.calculate_column_size` (memory_calculator.py
lines 57-88).  Returns `none` where Python raises: for a string-like column
whose stored length is `None`, `None * row_count` is a `TypeError`.  The
callable dict entry for `'string'` is kept even though the first branch
already catches `'string'`.  An unknown type falls back to 1 byte (after
printing a warning, modelled separately by `column_warns`). -/
def calculate_column_size (column : Column) (row_count : Int) : Option Int :=
  if pyLower column.type = "varchar" ∨ pyLower column.type = "string" ∨
      pyLower column.type = "char" then
    match column.length with
    | some avg_length => some (avg_length * row_count)
    | none => none
  else
    match DATA_TYPE_SIZES_get (pyLower column.type) with
    | some .varlen =>
      match column.length with
      | some l => some (l * row_count)
      | none => none
    | some (.fixed size) => some (size * row_count)
    | none => some (1 * row_count)

/-- True exactly when `calculate_column_size` reaches the unknown-type
branch that prints `Warning: Unknown type ...` (memory_calculator.py
lines 83-86). -/
def column_warns (column : Column) : Bool :=
  if pyLower column.type = "varchar" ∨ pyLower column.type = "string" ∨
      pyLower column.type = "char" then false
  else (DATA_TYPE_SIZES_get (pyLower column.type)).isNone

/-- The result dict of `calculate_total_memory`; the three derived fields
are Python floats, modelled as exact rationals. -/
structure MemoryEstimate where
  total_bytes : Int
  total_kb : ℚ
  total_mb : ℚ
  total_gb : ℚ
deriving DecidableEq, Repr

/-- `sum(self.calculate_column_size(col, row_count) for col in self.columns)`
(memory_calculator.py line 108); `none` as soon as one column raises. -/
def sum_column_sizes : List Column → Int → Option Int
  | [], _ => some 0
  | c :: rest, n =>
    match calculate_column_size c n, sum_column_sizes rest n with
    | some s, some r => some (s + r)
    | _, _ => none

/-- `DatasetMemoryCalculator.calculate_total_memory` (memory_calculator.py
lines 90-115): all-zero record for an empty column list, otherwise the byte
sum and its successive divisions by 1024. -/
def calculate_total_memory (cols : List Column) (row_count : Int) :
    Option MemoryEstimate :=
  if cols.isEmpty then
    some { total_bytes := 0, total_kb := 0, total_mb := 0, total_gb := 0 }
  else
    match sum_column_sizes cols row_count with
    | none => none
    | some total_bytes =>
      some { total_bytes := total_bytes
             total_kb := (total_bytes : ℚ) / 1024
             total_mb := (total_bytes : ℚ) / (1024 * 1024)
             total_gb := (total_bytes : ℚ) / (1024 * 1024 * 1024) }

/-- The per-value byte size of a column under the class's size model: what
`calculate_column_size` assigns to a single row. -/
def per_value_size (c : Column) : Option Int :=
  calculate_column_size c 1

/-- The per-row byte sum of a schema: sum of `per_value_size` over the
columns, `none` when any column's size is undefined. -/
def per_row_bytes : List Column → Option Int
  | [] => some 0
  | c :: rest =>
    match per_value_size c, per_row_bytes rest with
    | some s, some r => some (s + r)
    | _, _ => none

/-! ### The class-based DDL scanner, `parse_create_table_sql`

memory_calculator.py lines 117-161.  The function first collapses
whitespace (`re.sub(r'\s+', ' ', sql.strip())`), then applies
`re.findall` with the pattern

  `"?(\w+)"?\s+(BIGINT|SMALLINT|INT|DECIMAL\(\d+,\d+\)|FLOAT|DOUBLE|`
  `VARCHAR\(\d+\)|CHAR\(\d+\)|DATETIME|BOOLEAN|BOOL)`
  `(?:\s*NOT\s+NULL)?(?:\s*PRIMARY\s+KEY)?`

case-insensitively.  The scanners below implement this pattern exactly:
alternatives in the order written, greedy repetition (maximal runs are the
only possible matches here because every literal after a repeated class
starts with a character excluded from that class), leftmost-first scanning
for `findall` with continuation at the end of each match. -/

/-- `re.sub(r'\s+', ' ', ...)`: every maximal whitespace run becomes one
space.  The flag records whether the previous character was whitespace. -/
def squeezeWSAux : Bool → List Char → List Char
  | _, [] => []
  | prevSpace, c :: rest =>
    if isSpaceChar c then
      if prevSpace then squeezeWSAux true rest
      else ' ' :: squeezeWSAux true rest
    else c :: squeezeWSAux false rest

/-- `re.sub(r'\s+', ' ', sql.strip())` (memory_calculator.py line 128). -/
def normalize_ws (l : List Char) : List Char :=
  squeezeWSAux false (pyStrip l)

/-- `\(\d+\)` with the matched input characters returned: the parenthesized
length argument of `VARCHAR(\d+)` / `CHAR(\d+)`. -/
def matchParenArg (r : List Char) : Option (List Char × List Char) :=
  match r with
  | '(' :: r2 =>
    let ds := r2.takeWhile Char.isDigit
    if ds = [] then none
    else
      match r2.dropWhile Char.isDigit with
      | ')' :: r3 => some ('(' :: (ds ++ [')']), r3)
      | _ => none
  | _ => none

/-- `\(\d+,\d+\)` with the matched input characters returned: the
precision/scale argument of `DECIMAL(\d+,\d+)`. -/
def matchDecimalArg (r : List Char) : Option (List Char × List Char) :=
  match r with
  | '(' :: r2 =>
    let d1 := r2.takeWhile Char.isDigit
    if d1 = [] then none
    else
      match r2.dropWhile Char.isDigit with
      | ',' :: r3 =>
        let d2 := r3.takeWhile Char.isDigit
        if d2 = [] then none
        else
          match r3.dropWhile Char.isDigit with
          | ')' :: r4 => some ('(' :: (d1 ++ ',' :: (d2 ++ [')'])), r4)
          | _ => none
      | _ => none
  | _ => none

/-- The type alternation of the column pattern, alternatives tried in the
order they appear in the source regex; returns the matched characters
(original case) and the rest of the input. -/
def matchTypeAlt (s : List Char) : Option (List Char × List Char) :=
  matchLitCI "BIGINT".data s <|>
  matchLitCI "SMALLINT".data s <|>
  matchLitCI "INT".data s <|>
  (match matchLitCI "DECIMAL".data s with
   | some (m, r) => (matchDecimalArg r).map (fun a => (m ++ a.1, a.2))
   | none => none) <|>
  matchLitCI "FLOAT".data s <|>
  matchLitCI "DOUBLE".data s <|>
  (match matchLitCI "VARCHAR".data s with
   | some (m, r) => (matchParenArg r).map (fun a => (m ++ a.1, a.2))
   | none => none) <|>
  (match matchLitCI "CHAR".data s with
   | some (m, r) => (matchParenArg r).map (fun a => (m ++ a.1, a.2))
   | none => none) <|>
  matchLitCI "DATETIME".data s <|>
  matchLitCI "BOOLEAN".data s <|>
  matchLitCI "BOOL".data s

/-- `(?:\s*W1\s+W2)?`, the optional constraint group (`NOT NULL`,
`PRIMARY KEY`): consumed when it matches, input returned unchanged
otherwise. -/
def match_constraint (w1 w2 : List Char) (s : List Char) : List Char :=
  let r0 := s.dropWhile isSpaceChar
  match matchLitCI w1 r0 with
  | none => s
  | some (_, r1) =>
    match r1 with
    | c :: rest =>
      if isSpaceChar c then
        match matchLitCI w2 (rest.dropWhile isSpaceChar) with
        | some (_, r2) => r2
        | none => s
      else s
    | [] => s

/-- One attempt of the full column pattern at the current position:
optional opening quote, `(\w+)` (maximal and forced, since a shorter run
leaves a word character where whitespace is required), optional closing
quote, `\s+`, the type alternation, then the two optional constraint
groups.  Returns the two captured groups and the rest of the input. -/
def match_column_at (s : List Char) : Option (String × String × List Char) :=
  let s1 := match s with
    | '"' :: r => r
    | _ => s
  let w := s1.takeWhile isWordChar
  if w = [] then none
  else
    let r1 := s1.dropWhile isWordChar
    let r2 := match r1 with
      | '"' :: r => r
      | _ => r1
    match r2 with
    | c :: rest =>
      if isSpaceChar c then
        let r3 := rest.dropWhile isSpaceChar
        match matchTypeAlt r3 with
        | none => none
        | some (dt, r4) =>
          let r5 := match_constraint "NOT".data "NULL".data r4
          let r6 := match_constraint "PRIMARY".data "KEY".data r5
          some (String.mk w, String.mk dt, r6)
      else none
    | [] => none

/-- `re.findall` of the column pattern: leftmost, non-overlapping; after a
match scanning resumes at the match end, after a failure at the next
character.  Every match consumes at least one character, so fuel equal to
the input length never runs out. -/
def findall_columns : Nat → List Char → List (String × String)
  | _, [] => []
  | 0, _ => []
  | fuel + 1, s =>
    match match_column_at s with
    | some (nm, dt, r) => (nm, dt) :: findall_columns fuel r
    | none =>
      match s with
      | [] => []
      | _ :: rest => findall_columns fuel rest

/-- One attempt, at the current position, of the dynamically built length
pattern `rf'\x7bcolumn_name\x7d\s+\x7bdata_type\x7d\((\d+)\)'`
(memory_calculator.py line 140).  Because `data_type` is interpolated into
the pattern unescaped, its parentheses become regex groups, so the text
the pattern requires is `data_type` with the parentheses removed — which
is why the pattern never matches for a `VARCHAR(n)` / `CHAR(n)` /
`DECIMAL(p,s)` column.  `nm` and `dtLit` are the name and the
paren-stripped type. -/
def match_length_at (nm dtLit : List Char) (s : List Char) : Option Nat :=
  match matchLitCI nm s with
  | none => none
  | some (_, r1) =>
    match r1 with
    | c :: rest =>
      if isSpaceChar c then
        let r2 := rest.dropWhile isSpaceChar
        match matchLitCI dtLit r2 with
        | none => none
        | some (_, r3) =>
          match r3 with
          | '(' :: r4 =>
            let ds := r4.takeWhile Char.isDigit
            if ds = [] then none
            else
              match r4.dropWhile Char.isDigit with
              | ')' :: _ => some (digitsToNat ds)
              | _ => none
          | _ => none
      else none
    | [] => none

/-- `re.search` of the length pattern: first position at which it matches. -/
def search_length (nm dtLit : List Char) : List Char → Option Nat
  | [] => none
  | s@(_ :: rest) =>
    match match_length_at nm dtLit s with
    | some n => some n
    | none => search_length nm dtLit rest

/-- The `type_mapping` dict of `parse_create_table_sql`
(memory_calculator.py lines 144-156). -/
def type_mapping_get (s : String) : Option String :=
  if s = "BIGINT" then some "bigint"
  else if s = "SMALLINT" then some "smallint"
  else if s = "INT" then some "int32"
  else if s = "DECIMAL" then some "decimal"
  else if s = "FLOAT" then some "float"
  else if s = "DOUBLE" then some "float64"
  else if s = "VARCHAR" then some "string"
  else if s = "CHAR" then some "string"
  else if s = "DATETIME" then some "datetime"
  else if s = "BOOLEAN" then some "bool"
  else if s = "BOOL" then some "bool"
  else none

/-- `DatasetMemoryCalculator.parse_create_table_sql` (memory_calculator.py
lines 117-161): collapse whitespace, find all column-pattern matches, and
for each one look up the (mis-built) length pattern, map the type keyword
through `type_mapping` (keyed on the part before `(`, upper-cased,
defaulting to the lower-cased raw type) and `add_column` the result.
The column list is rebuilt from scratch, so the function returns the new
list. -/
def parse_create_table_sql (sql : String) : List Column :=
  let s := normalize_ws sql.data
  let ms := findall_columns s.length s
  ms.foldl
    (fun cols m =>
      let column_name := m.1
      let data_type := m.2
      let dtLit := data_type.data.filter (fun c => ¬(c = '(' ∨ c = ')'))
      let len := search_length column_name.data dtLit s
      let mapped :=
        (type_mapping_get
            (pyUpper (String.mk (data_type.data.takeWhile (· ≠ '('))))).getD
          (pyLower data_type)
      add_column cols column_name mapped (len.map Int.ofNat))
    []

/-! ### The app-side parser and size model (src/app.py) -/

/-- Skip to just after the first case-insensitive occurrence of `lit`;
`none` when `lit` does not occur. -/
def find_after_lit (lit : List Char) : List Char → Option (List Char)
  | [] => (matchLitCI lit []).map (fun m => m.2)
  | s@(_ :: rest) =>
    match matchLitCI lit s with
    | some (_, r) => some r
    | none => find_after_lit lit rest

/-- `re.search(r'CREATE TABLE.*?\((.*?)\)', ddl, IGNORECASE|DOTALL)`
(app.py line 26), returning group 1.  The non-greedy gaps make the match,
when it exists, the text between the first `(` after the first
`CREATE TABLE` occurrence and the first `)` after that `(`; when the first
occurrence cannot be completed no later one can, so first-occurrence
scanning is exact. -/
def find_create_block (s : List Char) : Option (List Char) :=
  match find_after_lit "CREATE TABLE".data s with
  | none => none
  | some afterCT =>
    match afterCT.dropWhile (· ≠ '(') with
    | [] => none
    | _ :: afterParen =>
      if afterParen.contains ')' then some (afterParen.takeWhile (· ≠ ')'))
      else none

/-- `columns_part.split(',')` on character lists, keeping empty pieces
(they are filtered by the caller, as in the source). -/
def split_commas : List Char → List (List Char)
  | [] => [[]]
  | ',' :: rest => [] :: split_commas rest
  | c :: rest =>
    match split_commas rest with
    | [] => [[c]]
    | g :: gs => (c :: g) :: gs

/-- One attempt of `r'(\w+)\s+(\w+(\(\d+\))?)'` (app.py line 35) at the
current position: two word runs separated by whitespace, the second
optionally extended by a parenthesized digit group.  Both word runs are
maximal and forced. -/
def match_type_pattern_at (s : List Char) : Option (String × String) :=
  let w1 := s.takeWhile isWordChar
  if w1 = [] then none
  else
    match s.dropWhile isWordChar with
    | c :: rest =>
      if isSpaceChar c then
        let r2 := rest.dropWhile isSpaceChar
        let w2 := r2.takeWhile isWordChar
        if w2 = [] then none
        else
          let r3 := r2.dropWhile isWordChar
          let paren : Option (List Char) :=
            match r3 with
            | '(' :: r4 =>
              let ds := r4.takeWhile Char.isDigit
              if ds = [] then none
              else
                match r4.dropWhile Char.isDigit with
                | ')' :: _ => some ('(' :: (ds ++ [')']))
                | _ => none
            | _ => none
          match paren with
          | some p => some (String.mk w1, String.mk (w2 ++ p))
          | none => some (String.mk w1, String.mk w2)
      else none
    | [] => none

/-- `re.search` of the app's type pattern: leftmost match in a fragment. -/
def search_type_pattern : List Char → Option (String × String)
  | [] => none
  | s@(_ :: rest) =>
    match match_type_pattern_at s with
    | some r => some r
    | none => search_type_pattern rest

/-- `parse_create_table_ddl` (app.py lines 13-42): take the parenthesized
block after `CREATE TABLE` (empty result when there is none), split it on
commas, strip the fragments, drop the empty ones and keep the first
name/type match of each fragment. -/
def parse_create_table_ddl (ddl : String) : List (String × String) :=
  match find_create_block ddl.data with
  | none => []
  | some columns_part =>
    let raw_columns := ((split_commas columns_part).map pyStrip).filter (· ≠ [])
    raw_columns.filterMap (fun col_def => search_type_pattern col_def)

/-- The `type_sizes` dict of `estimate_column_size` (app.py lines 52-60). -/
def app_type_sizes (t : String) : Option Int :=
  if t = "INT" then some 4
  else if t = "BIGINT" then some 8
  else if t = "FLOAT" then some 4
  else if t = "DOUBLE" then some 8
  else if t = "DATE" then some 3
  else if t = "TIMESTAMP" then some 8
  else none

/-- `re.match(r'(VARCHAR|CHAR)\((\d+)\)', col_type)` (app.py line 62),
returning the captured length.  The alternation backtracks as in the
source: `CHAR` is attempted when the `VARCHAR` branch fails. -/
def match_varchar_char_len (s : List Char) : Option Nat :=
  let parenLen : List Char → Option Nat := fun r =>
    match r with
    | '(' :: r2 =>
      let ds := r2.takeWhile Char.isDigit
      if ds = [] then none
      else
        match r2.dropWhile Char.isDigit with
        | ')' :: _ => some (digitsToNat ds)
        | _ => none
    | _ => none
  (match matchLit "VARCHAR".data s with
   | some r => parenLen r
   | none => none) <|>
  (match matchLit "CHAR".data s with
   | some r => parenLen r
   | none => none)

/-- `estimate_column_size` (app.py lines 44-80): upper-case and strip the
type, then in order: explicit `VARCHAR(n)`/`CHAR(n)` length, bare
`VARCHAR` prefix (255), bare `CHAR` prefix (1), the fixed-size table, and
finally the 4-byte fallback for unknown types. -/
def estimate_column_size (col_type : String) : Int :=
  let ct := pyStripStr (pyUpper col_type)
  match match_varchar_char_len ct.data with
  | some len => Int.ofNat len
  | none =>
    if startsWithLit "VARCHAR".data ct.data then 255
    else if startsWithLit "CHAR".data ct.data then 1
    else
      match app_type_sizes ct with
      | some s => s
      | none => 4

/-- The loop body of `format_size` (app.py lines 82-89) over the remaining
unit names: return the scaled value with the current unit when it is below
1024, else divide by 1024 and continue; `none` models falling off the end
of the loop (Python returns `None` there).  The rendered `f"{x:3.1f}"`
string is presentation; the value/unit pair is what the loop chooses. -/
def format_size_go : List String → ℚ → Option (ℚ × String)
  | [], _ => none
  | u :: us, b => if b < 1024 then some (b, u) else format_size_go us (b / 1024)

/-- `format_size` (app.py lines 82-89) with its unit list
`['Б', 'КБ', 'МБ', 'ГБ', 'ТБ']` (Cyrillic B/KB/MB/GB/TB). -/
def format_size (bytes_size : ℚ) : Option (ℚ × String) :=
  format_size_go ["Б", "КБ", "МБ", "ГБ", "ТБ"] bytes_size

/-- The aggregation loop of the app shell (app.py lines 102-107):
per-row total is the sum of `estimate_column_size` over the column types,
total size is that times the row count. -/
def app_total_size (types : List String) (row_count : Int) : Int :=
  (types.map estimate_column_size).sum * row_count

/-! ### Helper lemmas -/

/-- `calculate_column_size` is linear in the row count: the size for `n`
rows is the per-value size times `n`. -/
theorem calculate_column_size_linear (c : Column) (n : Int) :
    calculate_column_size c n = (per_value_size c).map (· * n) := by
  unfold per_value_size calculate_column_size
  split_ifs with h
  · cases c.length <;> simp
  · cases DATA_TYPE_SIZES_get (pyLower c.type) with
    | none => simp
    | some e =>
      cases e with
      | fixed s => simp
      | varlen => cases c.length <;> simp

/-- The summed column sizes for `n` rows are the per-row bytes times `n`. -/
theorem sum_column_sizes_linear (cols : List Column) (n : Int) :
    sum_column_sizes cols n = (per_row_bytes cols).map (· * n) := by
  induction cols with
  | nil => simp [sum_column_sizes, per_row_bytes]
  | cons c rest ih =>
    simp only [sum_column_sizes, per_row_bytes, calculate_column_size_linear, ih]
    cases per_value_size c <;> cases per_row_bytes rest <;> simp [add_mul]

/-- A column whose size computation raises poisons the whole sum. -/
theorem sum_column_sizes_append_none (cols : List Column) (c : Column) (n : Int)
    (h : calculate_column_size c n = none) :
    sum_column_sizes (cols ++ [c]) n = none := by
  induction cols with
  | nil => simp [sum_column_sizes, h]
  | cons d rest ih =>
    have hstep : sum_column_sizes (d :: (rest ++ [c])) n =
        match calculate_column_size d n, sum_column_sizes (rest ++ [c]) n with
        | some s, some r => some (s + r)
        | _, _ => none := rfl
    rw [List.cons_append, hstep, ih]
    cases calculate_column_size d n <;> rfl

/-! ### The claims -/

/-- C1 confirmed. For every non-empty schema and positive row count `N`,
whenever every column has a defined per-value size (the sole undefined
case, a `char` column stored with length `None`, is the subject of C10),
`calculate_total_memory` returns an estimate whose `total_bytes` is `N`
times the sum of the per-value byte sizes of the columns. -/
theorem C1_total_bytes (cols : List Column) (N : Int) (hne : cols ≠ [])
    (_hN : 0 < N) (perRow : Int) (h : per_row_bytes cols = some perRow) :
    ∃ est, calculate_total_memory cols N = some est ∧
      est.total_bytes = N * perRow := by
  have hE : cols.isEmpty = false := by
    cases cols with
    | nil => exact absurd rfl hne
    | cons a l => rfl
  have hsum : sum_column_sizes cols N = some (perRow * N) := by
    rw [sum_column_sizes_linear, h]; rfl
  have hcalc : calculate_total_memory cols N =
      some { total_bytes := perRow * N
             total_kb := ((perRow * N : Int) : ℚ) / 1024
             total_mb := ((perRow * N : Int) : ℚ) / (1024 * 1024)
             total_gb := ((perRow * N : Int) : ℚ) / (1024 * 1024 * 1024) } := by
    unfold calculate_total_memory
    rw [hE, hsum]
    rfl
  exact ⟨_, hcalc, mul_comm perRow N⟩

/-- Witness for C1: two columns of 4 and 50 bytes, 10 rows, 540 bytes. -/
theorem C1_total_bytes_witness :
    ([⟨"id", "int32", none⟩, ⟨"name", "string", some 50⟩] : List Column) ≠ [] ∧
    (0 : Int) < 10 ∧
    per_row_bytes [⟨"id", "int32", none⟩, ⟨"name", "string", some 50⟩] = some 54 ∧
    ∃ est,
      calculate_total_memory
        [⟨"id", "int32", none⟩, ⟨"name", "string", some 50⟩] 10 = some est ∧
      est.total_bytes = 10 * 54 :=
  ⟨by decide, by decide, by decide,
   C1_total_bytes _ 10 (by decide) (by decide) 54 (by decide)⟩

/-- C2 confirmed. Parsing `CREATE TABLE t (id INT, name VARCHAR(50),
flag BOOLEAN)` with the class parser yields exactly the three descriptors
`(id, int32, none)`, `(name, string, 50)`, `(flag, bool, none)`, and
estimating that schema at 1000 rows yields 55000 total bytes. -/
theorem C2_example_parse_and_total :
    parse_create_table_sql "CREATE TABLE t (id INT, name VARCHAR(50), flag BOOLEAN)" =
      [⟨"id", "int32", none⟩, ⟨"name", "string", some 50⟩, ⟨"flag", "bool", none⟩] ∧
    (calculate_total_memory
        (parse_create_table_sql "CREATE TABLE t (id INT, name VARCHAR(50), flag BOOLEAN)")
        1000).map MemoryEstimate.total_bytes = some 55000 := by
  constructor <;> decide

/-- C3 counterexample. The class-based surface accepts a `VARCHAR` column
with no length, but stores default length 50, so its per-value size is 50,
not the claimed 255. -/
theorem C3_cex :
    add_column [] "name" "VARCHAR" none = [⟨"name", "varchar", some 50⟩] ∧
    calculate_column_size ⟨"name", "varchar", some 50⟩ 1 = some 50 ∧
    ((50 : Int) = 255 → False) := by
  refine ⟨by decide, by decide, by decide⟩

/-- C3 amended. On the app's `estimate_column_size` surface,
`VARCHAR(100)` costs 100 bytes, bare `VARCHAR` defaults to 255 and bare
`CHAR` to 1; the class-based surface instead defaults a length-less
varchar to 50, and its DDL path also stores 50 for `VARCHAR(100)` because
the interpolated length pattern never matches. -/
theorem C3_amended :
    estimate_column_size "VARCHAR(100)" = 100 ∧
    estimate_column_size "VARCHAR" = 255 ∧
    estimate_column_size "CHAR" = 1 ∧
    add_column [] "name" "VARCHAR" none = [⟨"name", "varchar", some 50⟩] ∧
    calculate_column_size ⟨"name", "varchar", some 50⟩ 1 = some 50 ∧
    parse_create_table_sql "CREATE TABLE t (name VARCHAR(100))" =
      [⟨"name", "string", some 50⟩] := by
  refine ⟨by decide, by decide, by decide, by decide, by decide, by decide⟩

/-- C4 counterexample. On the app surface (cited by the claim), `DECIMAL`
is absent from the size table, so `estimate_column_size "DECIMAL(10,2)"`
is the 4-byte unknown-type fallback, not 8. -/
theorem C4_cex :
    estimate_column_size "DECIMAL(10,2)" = 4 ∧ ((4 : Int) = 8 → False) := by
  refine ⟨by decide, by decide⟩

/-- C4 amended. In the class implementation a decimal costs exactly 8
bytes per value with precision/scale ignored (both via `add_column`, which
collapses `decimal(p,s)` to `decimal`, and via the DDL parser); in the
app's `estimate_column_size`, `DECIMAL` is unrecognized and falls back to
4 bytes, the precision/scale digits still never interpreted as a length. -/
theorem C4_amended :
    add_column [] "price" "DECIMAL(10,2)" none = [⟨"price", "decimal", none⟩] ∧
    calculate_column_size ⟨"price", "decimal", none⟩ 1 = some 8 ∧
    parse_create_table_sql "CREATE TABLE t (price DECIMAL(10,2))" =
      [⟨"price", "decimal", none⟩] ∧
    (calculate_total_memory
        (parse_create_table_sql "CREATE TABLE t (price DECIMAL(10,2))") 3).map
      MemoryEstimate.total_bytes = some 24 ∧
    estimate_column_size "DECIMAL(10,2)" = 4 ∧
    estimate_column_size "decimal" = 4 := by
  refine ⟨by decide, by decide, by decide, by decide, by decide, by decide⟩

/-- C5 counterexample. In the class implementation an unknown type such as
`GEOMETRY` falls back to 1 byte per value (with a printed warning), not
the claimed fixed 4-byte fallback. -/
theorem C5_cex :
    add_column [] "g" "GEOMETRY" none = [⟨"g", "geometry", none⟩] ∧
    calculate_column_size ⟨"g", "geometry", none⟩ 1 = some 1 ∧
    ((1 : Int) = 4 → False) := by
  refine ⟨by decide, by decide, by decide⟩

/-- C5 amended. An unknown type name never raises and the computation
proceeds, but the two surfaces differ: the app's `estimate_column_size`
silently returns the 4-byte fallback, while the class's
`calculate_column_size` prints a warning and falls back to 1 byte. -/
theorem C5_amended :
    estimate_column_size "GEOMETRY" = 4 ∧
    calculate_column_size ⟨"g", "geometry", none⟩ 5 = some 5 ∧
    column_warns ⟨"g", "geometry", none⟩ = true ∧
    (∃ est, calculate_total_memory [⟨"g", "geometry", none⟩] 5 = some est ∧
      est.total_bytes = 5) := by
  refine ⟨by decide, by decide, by decide, ⟨_, rfl, rfl⟩⟩

/-- C6 counterexample. The class's `parse_create_table_sql` never requires
a `CREATE TABLE ( ... )` wrapper: on plain prose containing a word
followed by a type keyword it returns a non-empty descriptor list. -/
theorem C6_cex :
    find_create_block "the flag bool was set".data = none ∧
    parse_create_table_sql "the flag bool was set" = [⟨"flag", "bool", none⟩] ∧
    parse_create_table_sql "the flag bool was set" ≠ [] := by
  refine ⟨by decide, by decide, by decide⟩

/-- C6 amended. The app's `parse_create_table_ddl` returns an empty
descriptor list, without error, for every input in which the
`CREATE TABLE ... ( ... )` search fails; the class parser also never
raises, but scans for column fragments anywhere in the text. -/
theorem C6_amended (ddl : String) (h : find_create_block ddl.data = none) :
    parse_create_table_ddl ddl = [] := by
  unfold parse_create_table_ddl
  rw [h]

/-- Witness for C6 amended: plain prose parses to the empty list. -/
theorem C6_amended_witness :
    find_create_block "just some prose".data = none ∧
    parse_create_table_ddl "just some prose" = [] :=
  ⟨by decide, C6_amended "just some prose" (by decide)⟩

/-- C7 confirmed. Every estimate the class returns has
`total_kb = total_bytes / 1024`, `total_mb = total_bytes / 1024²` and
`total_gb = total_bytes / 1024³` as exact divisions of the un-rounded byte
total, and an empty schema yields the all-zero record for any row count. -/
theorem C7_units (cols : List Column) (N : Int) :
    (∀ est, calculate_total_memory cols N = some est →
      est.total_kb = (est.total_bytes : ℚ) / 1024 ∧
      est.total_mb = (est.total_bytes : ℚ) / 1024 ^ 2 ∧
      est.total_gb = (est.total_bytes : ℚ) / 1024 ^ 3) ∧
    (cols = [] →
      calculate_total_memory cols N =
        some { total_bytes := 0, total_kb := 0, total_mb := 0, total_gb := 0 }) := by
  constructor
  · intro est hest
    unfold calculate_total_memory at hest
    split_ifs at hest with hc
    · obtain rfl := Option.some.inj hest
      norm_num
    · cases hs : sum_column_sizes cols N with
      | none => rw [hs] at hest; cases hest
      | some t =>
        rw [hs] at hest
        obtain rfl := Option.some.inj hest
        refine ⟨rfl, ?_, ?_⟩ <;> norm_num
  · intro hnil
    subst hnil
    rfl

/-- Witness for C7: the empty schema at 7 rows, and a one-column schema at
2 rows. -/
theorem C7_units_witness :
    calculate_total_memory [] 7 =
      some { total_bytes := 0, total_kb := 0, total_mb := 0, total_gb := 0 } ∧
    ∃ est, calculate_total_memory [⟨"id", "int32", none⟩] 2 = some est ∧
      est.total_kb = (est.total_bytes : ℚ) / 1024 ∧
      est.total_mb = (est.total_bytes : ℚ) / 1024 ^ 2 ∧
      est.total_gb = (est.total_bytes : ℚ) / 1024 ^ 3 :=
  ⟨(C7_units [] 7).2 rfl,
   ⟨_, rfl, (C7_units [⟨"id", "int32", none⟩] 2).1 _ rfl⟩⟩

/-- C8 confirmed. `NOT NULL` and `PRIMARY KEY` after a column's type are
recognized and ignored by both parsers: they appear neither in the stored
type nor as separate descriptors, and no fragment starting at `NULL...` or
`KEY...` can ever match the type alternation, so the keywords can never
seed a column of their own. -/
theorem C8_constraints :
    parse_create_table_sql "CREATE TABLE t (id INT NOT NULL, flag BOOL PRIMARY KEY)" =
      [⟨"id", "int32", none⟩, ⟨"flag", "bool", none⟩] ∧
    parse_create_table_ddl "CREATE TABLE t (id INT NOT NULL, flag BOOL PRIMARY KEY)" =
      [("id", "INT"), ("flag", "BOOL")] ∧
    (∀ rest : List Char,
      matchTypeAlt ('N' :: 'U' :: 'L' :: 'L' :: rest) = none ∧
      matchTypeAlt ('K' :: 'E' :: 'Y' :: rest) = none) := by
  refine ⟨by decide, by decide, fun rest => ⟨rfl, rfl⟩⟩

/-- C9 counterexample. At `1024^5` bytes the loop of `format_size` runs
out of units and the helper returns no string at all (Python `None`),
falsifying the claim for that non-negative byte count. -/
theorem C9_cex :
    (0 : ℚ) ≤ 1024 ^ 5 ∧ format_size ((1024 : ℚ) ^ 5) = none := by
  constructor
  · positivity
  · norm_num [format_size, format_size_go]

/-- C9 amended. For every non-negative byte count strictly below `1024^5`,
`format_size` picks its unit by repeated division by 1024 until the value
is below 1024, through the unit sequence Б/КБ/МБ/ГБ/ТБ (B/KB/MB/GB/TB);
at `1024^5` and above the loop is exhausted and no string is produced. -/
theorem C9_amended (b : ℚ) (_h0 : 0 ≤ b) :
    (b < 1024 → format_size b = some (b, "Б")) ∧
    (1024 ≤ b → b < 1024 ^ 2 → format_size b = some (b / 1024, "КБ")) ∧
    (1024 ^ 2 ≤ b → b < 1024 ^ 3 → format_size b = some (b / 1024 ^ 2, "МБ")) ∧
    (1024 ^ 3 ≤ b → b < 1024 ^ 4 → format_size b = some (b / 1024 ^ 3, "ГБ")) ∧
    (1024 ^ 4 ≤ b → b < 1024 ^ 5 → format_size b = some (b / 1024 ^ 4, "ТБ")) := by
  have h1024 : (0 : ℚ) < 1024 := by norm_num
  refine ⟨?_, ?_, ?_, ?_, ?_⟩
  · intro h
    simp [format_size, format_size_go, h]
  · intro hlo hhi
    have n1 : ¬ b < 1024 := not_lt.mpr hlo
    have l2 : b / 1024 < 1024 := by
      rw [div_lt_iff₀ h1024]
      nlinarith [hhi]
    simp [format_size, format_size_go, n1, l2]
  · intro hlo hhi
    have n1 : ¬ b < 1024 := not_lt.mpr (le_trans (by norm_num) hlo)
    have n2 : ¬ b / 1024 < 1024 := by
      rw [not_lt, le_div_iff₀ h1024]
      nlinarith [hlo]
    have l3 : b / 1024 / 1024 < 1024 := by
      rw [div_lt_iff₀ h1024, div_lt_iff₀ h1024]
      nlinarith [hhi]
    have he : b / 1024 / 1024 = b / 1024 ^ 2 := by ring
    rw [← he]
    simp [format_size, format_size_go, n1, n2, l3]
  · intro hlo hhi
    have n1 : ¬ b < 1024 := not_lt.mpr (le_trans (by norm_num) hlo)
    have n2 : ¬ b / 1024 < 1024 := by
      rw [not_lt, le_div_iff₀ h1024]
      nlinarith [hlo]
    have n3 : ¬ b / 1024 / 1024 < 1024 := by
      rw [not_lt, le_div_iff₀ h1024, le_div_iff₀ h1024]
      nlinarith [hlo]
    have l4 : b / 1024 / 1024 / 1024 < 1024 := by
      rw [div_lt_iff₀ h1024, div_lt_iff₀ h1024, div_lt_iff₀ h1024]
      nlinarith [hhi]
    have he : b / 1024 / 1024 / 1024 = b / 1024 ^ 3 := by ring
    rw [← he]
    simp [format_size, format_size_go, n1, n2, n3, l4]
  · intro hlo hhi
    have n1 : ¬ b < 1024 := not_lt.mpr (le_trans (by norm_num) hlo)
    have n2 : ¬ b / 1024 < 1024 := by
      rw [not_lt, le_div_iff₀ h1024]
      nlinarith [hlo]
    have n3 : ¬ b / 1024 / 1024 < 1024 := by
      rw [not_lt, le_div_iff₀ h1024, le_div_iff₀ h1024]
      nlinarith [hlo]
    have n4 : ¬ b / 1024 / 1024 / 1024 < 1024 := by
      rw [not_lt, le_div_iff₀ h1024, le_div_iff₀ h1024, le_div_iff₀ h1024]
      nlinarith [hlo]
    have l5 : b / 1024 / 1024 / 1024 / 1024 < 1024 := by
      rw [div_lt_iff₀ h1024, div_lt_iff₀ h1024, div_lt_iff₀ h1024, div_lt_iff₀ h1024]
      nlinarith [hhi]
    have he : b / 1024 / 1024 / 1024 / 1024 = b / 1024 ^ 4 := by ring
    rw [← he]
    simp [format_size, format_size_go, n1, n2, n3, n4, l5]

/-- Witness for C9 amended: 2048 bytes formats as 2 КБ. -/
theorem C9_amended_witness :
    (0 : ℚ) ≤ 2048 ∧ (1024 : ℚ) ≤ 2048 ∧ (2048 : ℚ) < 1024 ^ 2 ∧
    format_size 2048 = some (2048 / 1024, "КБ") :=
  ⟨by norm_num, by norm_num, by norm_num,
   (C9_amended 2048 (by norm_num)).2.1 (by norm_num) (by norm_num)⟩

/-- C10 confirmed. Adding a `char` column with no length stores length
`None` (the varchar/string default does not apply), and any subsequent
`calculate_total_memory` call on the resulting schema fails — `none` here
models the uncaught `TypeError` from `None * row_count` — instead of
returning an estimate, for every prior column list and positive row
count. -/
theorem C10_char_none_total (name : String) (cols : List Column) (N : Int)
    (_hN : 0 < N) :
    add_column cols name "char" none = cols ++ [⟨name, "char", none⟩] ∧
    calculate_total_memory (add_column cols name "char" none) N = none := by
  have hadd : add_column cols name "char" none = cols ++ [⟨name, "char", none⟩] := rfl
  refine ⟨hadd, ?_⟩
  rw [hadd]
  have hE : (cols ++ [(⟨name, "char", none⟩ : Column)]).isEmpty = false := by
    cases cols <;> rfl
  have hsum : sum_column_sizes (cols ++ [⟨name, "char", none⟩]) N = none :=
    sum_column_sizes_append_none cols _ N rfl
  unfold calculate_total_memory
  rw [hE, hsum]
  simp

/-- Witness for C10: one `char` column with no length, 5 rows. -/
theorem C10_char_none_total_witness :
    (0 : Int) < 5 ∧
    calculate_total_memory (add_column [] "c" "char" none) 5 = none :=
  ⟨by decide, (C10_char_none_total "c" [] 5 (by decide)).2⟩

end VolumeDS
